import Mathlib

/-!
Verification of the CRUD HTTP API in `MONGO-PRAKTEK/API/server.js`.

The JavaScript handlers are shallowly embedded as pure Lean functions:

* the Mongo collections become explicit lists of documents and every handler
  returns, besides the HTTP response data, the new store state and the list of
  store operations it issued (so "never reaches the store" is a statement
  about that list);
* `new Date()` becomes an explicit `now : Int` parameter (milliseconds);
* JSON numbers are modelled as `ℚ` (JSON cannot carry NaN or Infinity, and
  every JSON number literal is a finite decimal); query parameters that the
  code feeds through `parseInt` / `parseFloat` are modelled post-parse;
* JS `parseInt` applied to a finite number truncates towards zero, modelled
  by `truncRat`; `Math.ceil(total / limit)` is modelled by `jsCeilDiv`;
* `new Date(string)` is an environment facility, so the advanced post search
  is parameterised by the date parser `String → Option Int`, `none` standing
  for an unparseable string (JS `Invalid Date`);
* the `$regex: pat, $options: i` filters are modelled as case-insensitive
  literal substring tests (the code only ever passes the raw query parameter
  as the pattern).
-/

namespace Mongo45

/-- JS `parseInt` on a finite number: truncation towards zero.
`q.num.tdiv q.den` is t-division of the reduced numerator by the (positive)
denominator, which rounds towards zero exactly as `parseInt` does. -/
def truncRat (q : ℚ) : Int := Int.tdiv q.num q.den

/-- JS `Math.ceil(total / limitN)` for a document count `total` and an integer
page size `limitN`, as used by the pagination metadata of both list handlers.
`⌈a / b⌉ = -⌊-a / b⌋`, and `Int.fdiv` is floor division. -/
def jsCeilDiv (total : Nat) (limitN : Int) : Int :=
  -(Int.fdiv (-(total : Int)) limitN)

/-- ASCII whitespace, as trimmed by JS `String.prototype.trim` (which also
strips rarer Unicode spaces that the modelled payloads do not contain). -/
def isSpaceChar (c : Char) : Bool :=
  c == ' ' || c == '\t' || c == '\n' || c == '\r'

/-- JS `s.trim()`: strip leading and trailing whitespace. -/
def jsTrim (s : String) : String :=
  ⟨((s.data.dropWhile isSpaceChar).reverse.dropWhile isSpaceChar).reverse⟩

/-- ASCII lowering of one character. -/
def lowerChar (c : Char) : Char :=
  if 'A' ≤ c && c ≤ 'Z' then Char.ofNat (c.toNat + 32) else c

/-- JS `s.toLowerCase()` on the ASCII range. -/
def jsLower (s : String) : String := ⟨s.data.map lowerChar⟩

/-- Truthiness of an optional string query/body parameter: JS `if (x)` is
false exactly for an absent parameter and for the empty string. -/
def strTruthy : Option String → Bool
  | none => false
  | some s => !(s == "")

/-- Hexadecimal digit test, for the 24-character ObjectId format. -/
def hexDigit (c : Char) : Bool :=
  c.isDigit || ('a' ≤ c && c ≤ 'f') || ('A' ≤ c && c ≤ 'F')

/-- The driver's `ObjectId.isValid`: a 24-character hex string, or any
12-character string (interpreted as 12 raw bytes). -/
def objectIdIsValid (s : String) : Bool :=
  s.length == 12 || (s.length == 24 && s.toList.all hexDigit)

/-- Does `pat` occur at the head of `hay`? (helper for substring search). -/
def headMatch : List Char → List Char → Bool
  | [], _ => true
  | _ :: _, [] => false
  | a :: as, b :: bs => a == b && headMatch as bs

/-- Does `pat` occur anywhere in `hay`? -/
def subMatch (pat : List Char) : List Char → Bool
  | [] => headMatch pat []
  | b :: bs => headMatch pat (b :: bs) || subMatch pat bs

/-- Case-insensitive substring test: the model of a
`{ $regex: pat, $options: 'i' }` Mongo filter on a string field, for the
metacharacter-free patterns the handlers pass through. -/
def ciSub (hay pat : String) : Bool :=
  subMatch (jsLower pat).toList (jsLower hay).toList

/-- A JSON-ish field value stored in a free-form `posts` document. -/
inductive JsVal where
  | str : String → JsVal
  | num : ℚ → JsVal
  | date : Int → JsVal
deriving DecidableEq, Repr

/-- A document of the `posts` collection: a store identifier plus free-form
fields (the code enforces no schema on posts). -/
structure Post where
  _id : String
  fields : List (String × JsVal)
deriving DecidableEq, Repr

/-- A document of the `produk` collection, with the fields the create/update
handlers write. -/
structure Produk where
  _id : String
  kode_produk : String
  nama_produk : String
  kategori : String
  harga : ℚ
  stok : Int
  deskripsi : String
  supplier : String
  tanggal_dibuat : Int
  tanggal_diupdate : Int
  status : String
deriving DecidableEq, Repr

/-- A candidate product write payload (JSON body). String-typed fields are
absent or a string; `harga` and `stok` are absent or a JSON number. -/
structure ProdukPayload where
  kode_produk : Option String
  nama_produk : Option String
  kategori : Option String
  harga : Option ℚ
  stok : Option ℚ
  deskripsi : Option String
  supplier : Option String
deriving DecidableEq, Repr

/-- Error message pushed by `validateProduk` for `kode_produk`. -/
def msgKode : String := "Kode produk wajib diisi"

/-- Error message pushed by `validateProduk` for `nama_produk`. -/
def msgNama : String := "Nama produk wajib diisi minimal 3 karakter"

/-- Error message pushed by `validateProduk` for `kategori`. -/
def msgKategori : String := "Kategori wajib diisi"

/-- Error message pushed by `validateProduk` for `harga`. -/
def msgHarga : String := "Harga harus berupa angka dan lebih besar dari 0"

/-- Error message pushed by `validateProduk` for `stok`. -/
def msgStok : String := "Stok harus berupa angka dan tidak boleh negatif"

/-- The `kode_produk` rule of `validateProduk`:
`!data.kode_produk || data.kode_produk.trim() === ''`. An absent field and
the empty string are both falsy, and both have empty trim, so the check
collapses to "trim of the field (defaulting to empty) is empty". -/
def kodeBad (v : Option String) : Bool := jsTrim (v.getD "") == ""

/-- The `nama_produk` rule: `!data.nama_produk || data.nama_produk.trim().length < 3`. -/
def namaBad (v : Option String) : Bool := (jsTrim (v.getD "")).length < 3

/-- The `kategori` rule: `!data.kategori || data.kategori.trim() === ''`. -/
def kategoriBad (v : Option String) : Bool := jsTrim (v.getD "") == ""

/-- The `harga` rule: `!data.harga || isNaN(data.harga) || parseFloat(data.harga) <= 0`.
On a present JSON number `q` this is `q = 0 ∨ q ≤ 0`, i.e. `q ≤ 0`. -/
def hargaBad : Option ℚ → Bool
  | none => true
  | some q => q ≤ 0

/-- The `stok` rule: `data.stok === undefined || isNaN(data.stok) || parseInt(data.stok) < 0`.
Note the code compares `parseInt(data.stok)` — the truncation — with 0; it
never requires `stok` itself to be an integer. -/
def stokBad : Option ℚ → Bool
  | none => true
  | some q => truncRat q < 0

/-- The payload validator `validateProduk` (server.js lines 423-452): each of
the five rules is checked unconditionally, pushing its message onto the
error array, and the array is returned (empty = valid). -/
def validateProduk (d : ProdukPayload) : List String :=
  (if kodeBad d.kode_produk then [msgKode] else []) ++
  (if namaBad d.nama_produk then [msgNama] else []) ++
  (if kategoriBad d.kategori then [msgKategori] else []) ++
  (if hargaBad d.harga then [msgHarga] else []) ++
  (if stokBad d.stok then [msgStok] else [])

/-- An operation issued against the document store by a handler. -/
inductive StoreOp where
  | findOne (coll : String)
  | findMany (coll : String)
  | countDocs (coll : String)
  | insertOne (coll : String)
  | updateOne (coll : String)
  | deleteOne (coll : String)
deriving DecidableEq, Repr

/-- The pagination metadata block both list handlers attach to the response. -/
structure Pagination where
  current_page : Int
  total_pages : Int
  total_data : Nat
  per_page : Int
  has_next : Bool
  has_prev : Bool
deriving DecidableEq, Repr

/-- The metadata computation shared verbatim by GET /posts and GET /api/produk
(server.js 160-167 and 502-509). -/
def mkPagination (pageNum limitNum : Int) (total : Nat) : Pagination :=
  { current_page := pageNum
    total_pages := jsCeilDiv total limitNum
    total_data := total
    per_page := limitNum
    has_next := decide (pageNum < jsCeilDiv total limitNum)
    has_prev := decide (1 < pageNum) }

/-- The skip/limit pair a list handler passes to the store's find. -/
structure FindQuery where
  skip : Int
  limit : Int
deriving DecidableEq, Repr

/-- Cursor execution of `.skip(n).limit(m)` over an already-sorted match list.
(The claims under verification never exercise negative skip or limit, which
the real store would reject; `Int.toNat` clamps them here.) -/
def runFind {α : Type} (docs : List α) (q : FindQuery) : List α :=
  (docs.drop q.skip.toNat).take q.limit.toNat

/-- `.sort({ _id: -1 })` on posts: newest (largest id) first. -/
def sortPostsDesc (l : List Post) : List Post :=
  l.mergeSort (fun a b => decide (b._id ≤ a._id))

/-- `.sort({ tanggal_dibuat: -1 })` on products: newest first. -/
def sortProdukDesc (l : List Produk) : List Produk :=
  l.mergeSort (fun a b => decide (b.tanggal_dibuat ≤ a.tanggal_dibuat))

/-- Field lookup in a free-form post document. -/
def lookupField (fs : List (String × JsVal)) (k : String) : Option JsVal :=
  (fs.find? (fun kv => kv.1 == k)).map (fun kv => kv.2)

/-- A case-insensitive `$regex` filter on one named field of a post document:
it matches only a string-valued field containing the pattern. -/
def ciFieldMatch (fs : List (String × JsVal)) (k pat : String) : Bool :=
  match lookupField fs k with
  | some (.str s) => ciSub s pat
  | _ => false

/-- Query parameters of GET /posts, with `page`/`limit` taken post-`parseInt`. -/
structure PostListParams where
  search : Option String
  page : Int
  limit : Int
deriving DecidableEq, Repr

/-- The GET /posts filter: with a truthy `search`, an `$or` of case-insensitive
matches over title, content and author; otherwise everything matches. -/
def matchesPostList (P : PostListParams) (p : Post) : Bool :=
  if strTruthy P.search then
    ciFieldMatch p.fields "title" (P.search.getD "") ||
      ciFieldMatch p.fields "content" (P.search.getD "") ||
      ciFieldMatch p.fields "author" (P.search.getD "")
  else true

/-- Response of a list handler. -/
structure ListResult (α : Type) where
  status : Nat
  success : Bool
  data : List α
  pagination : Pagination
  query : FindQuery
  ops : List StoreOp
deriving DecidableEq, Repr

/-- GET /posts (server.js 127-178). -/
def postsList (s : List Post) (P : PostListParams) : ListResult Post :=
  let skip := (P.page - 1) * P.limit
  let q : FindQuery := ⟨skip, P.limit⟩
  let matching := s.filter (matchesPostList P)
  { status := 200, success := true
    data := runFind (sortPostsDesc matching) q
    pagination := mkPagination P.page P.limit matching.length
    query := q
    ops := [.findMany "posts", .countDocs "posts"] }

/-- Query parameters of GET /api/produk; numeric parameters are taken
post-parse (`parseInt` for page/limit, `parseFloat` for the price bounds;
a present value stands for a truthy, i.e. nonempty, query string). -/
structure ProdukListParams where
  search : Option String
  kategori : Option String
  min_harga : Option ℚ
  max_harga : Option ℚ
  page : Int
  limit : Int
deriving DecidableEq, Repr

/-- The GET /api/produk filter (server.js 464-484). -/
def matchesProdukList (P : ProdukListParams) (p : Produk) : Bool :=
  (if strTruthy P.search then
      ciSub p.nama_produk (P.search.getD "") || ciSub p.deskripsi (P.search.getD "")
    else true) &&
  (if strTruthy P.kategori then ciSub p.kategori (P.kategori.getD "") else true) &&
  (match P.min_harga with | none => true | some m => decide (m ≤ p.harga)) &&
  (match P.max_harga with | none => true | some m => decide (p.harga ≤ m))

/-- GET /api/produk (server.js 455-525). -/
def produkList (s : List Produk) (P : ProdukListParams) : ListResult Produk :=
  let skip := (P.page - 1) * P.limit
  let q : FindQuery := ⟨skip, P.limit⟩
  let matching := s.filter (matchesProdukList P)
  { status := 200, success := true
    data := runFind (sortProdukDesc matching) q
    pagination := mkPagination P.page P.limit matching.length
    query := q
    ops := [.findMany "produk", .countDocs "produk"] }

/-- Response of a get-by-id handler (`message` is empty where the source
attaches none). -/
structure GetResult (α : Type) where
  status : Nat
  success : Bool
  message : String
  data : Option α
  ops : List StoreOp
deriving DecidableEq, Repr

/-- GET /posts/:id (server.js 181-214). -/
def postGetById (s : List Post) (id : String) : GetResult Post :=
  if !objectIdIsValid id then
    ⟨400, false, "ID post tidak valid", none, []⟩
  else
    match s.find? (fun p => p._id == id) with
    | none => ⟨404, false, "Post tidak ditemukan", none, [.findOne "posts"]⟩
    | some p => ⟨200, true, "", some p, [.findOne "posts"]⟩

/-- GET /api/produk/:id (server.js 528-565). -/
def produkGetById (s : List Produk) (id : String) : GetResult Produk :=
  if !objectIdIsValid id then
    ⟨400, false, "ID produk tidak valid. Gunakan format ObjectId yang benar.", none, []⟩
  else
    match s.find? (fun p => p._id == id) with
    | none => ⟨404, false, "Produk dengan ID tersebut tidak ditemukan", none, [.findOne "produk"]⟩
    | some p => ⟨200, true, "Produk berhasil ditemukan", some p, [.findOne "produk"]⟩

/-- Response of a delete handler, carrying the post-delete store state. -/
structure DeleteResult (α : Type) where
  status : Nat
  success : Bool
  message : String
  deleted_data : Option α
  store : List α
  ops : List StoreOp
deriving DecidableEq, Repr

/-- DELETE /posts/:id (server.js 379-416): existence check first, then
`deleteOne`, answering with the previously fetched document. -/
def postDelete (s : List Post) (id : String) : DeleteResult Post :=
  if !objectIdIsValid id then ⟨400, false, "ID post tidak valid", none, s, []⟩
  else
    match s.find? (fun p => p._id == id) with
    | none => ⟨404, false, "Post tidak ditemukan", none, s, [.findOne "posts"]⟩
    | some p =>
      ⟨200, true, "Post berhasil dihapus", some p,
        s.eraseP (fun e => e._id == id), [.findOne "posts", .deleteOne "posts"]⟩

/-- DELETE /api/produk/:id (server.js 731-768). -/
def produkDelete (s : List Produk) (id : String) : DeleteResult Produk :=
  if !objectIdIsValid id then ⟨400, false, "ID produk tidak valid", none, s, []⟩
  else
    match s.find? (fun p => p._id == id) with
    | none => ⟨404, false, "Produk tidak ditemukan", none, s, [.findOne "produk"]⟩
    | some p =>
      ⟨200, true, "Produk berhasil dihapus", some p,
        s.eraseP (fun e => e._id == id), [.findOne "produk", .deleteOne "produk"]⟩

/-- Rewrites the first element satisfying `p` with `f` (the effect of a
Mongo `updateOne`, which updates the first matching document). -/
def updateFirst {α : Type} (p : α → Bool) (f : α → α) : List α → List α
  | [] => []
  | x :: xs => if p x then f x :: xs else x :: updateFirst p f xs

/-- `$set` of one key/value into a free-form document. -/
def setField (doc : List (String × JsVal)) (kv : String × JsVal) : List (String × JsVal) :=
  if doc.any (fun e => e.1 == kv.1) then
    doc.map (fun e => if e.1 == kv.1 then (e.1, kv.2) else e)
  else doc ++ [kv]

/-- `$set` of an update document into a free-form document, key by key. -/
def setFields (doc : List (String × JsVal)) (upd : List (String × JsVal)) :
    List (String × JsVal) :=
  List.foldl setField doc upd

/-- The `$set` document of PUT /posts/:id: the request body re-stamped with
`updated_at: new Date()` (the spread puts the timestamp last, so it wins
over any `updated_at` key in the body). -/
def postSetDoc (body : List (String × JsVal)) (now : Int) : List (String × JsVal) :=
  body ++ [("updated_at", JsVal.date now)]

/-- Effect of the PUT /posts/:id `$set` on the matched document. -/
def applyPostSet (p : Post) (body : List (String × JsVal)) (now : Int) : Post :=
  ⟨p._id, setFields p.fields (postSetDoc body now)⟩

/-- Response of an update handler, carrying the post-update store state. -/
structure UpdateResult (α : Type) where
  status : Nat
  success : Bool
  message : String
  errors : List String
  data : Option α
  store : List α
  ops : List StoreOp
deriving DecidableEq, Repr

/-- PUT /posts/:id (server.js 311-376). `modifiedCount = 0` holds exactly
when applying the `$set` leaves the matched document unchanged. -/
def postPut (s : List Post) (id : String) (body : List (String × JsVal)) (now : Int) :
    UpdateResult Post :=
  if !objectIdIsValid id then ⟨400, false, "ID post tidak valid", [], none, s, []⟩
  else if body.isEmpty then
    ⟨400, false, "Data untuk update tidak boleh kosong", [], none, s, []⟩
  else
    match s.find? (fun p => p._id == id) with
    | none => ⟨404, false, "Post tidak ditemukan", [], none, s, [.findOne "posts"]⟩
    | some target =>
      let s' := updateFirst (fun p => p._id == id) (fun p => applyPostSet p body now) s
      if applyPostSet target body now == target then
        ⟨400, false, "Tidak ada perubahan data", [], none, s',
          [.findOne "posts", .updateOne "posts"]⟩
      else
        ⟨200, true, "Post berhasil diupdate", [],
          s'.find? (fun p => p._id == id), s',
          [.findOne "posts", .updateOne "posts", .findOne "posts"]⟩

/-- The normalised/coerced document POST /api/produk inserts
(server.js 595-606): trimmed strings, `parseFloat`-ed price,
`parseInt`-ed stock, both timestamps stamped `now`, default status. -/
def produkBaru (d : ProdukPayload) (newId : String) (now : Int) : Produk :=
  { _id := newId
    kode_produk := jsTrim (d.kode_produk.getD "")
    nama_produk := jsTrim (d.nama_produk.getD "")
    kategori := jsTrim (d.kategori.getD "")
    harga := d.harga.getD 0
    stok := truncRat (d.stok.getD 0)
    deskripsi := jsTrim (d.deskripsi.getD "")
    supplier := jsTrim (d.supplier.getD "")
    tanggal_dibuat := now
    tanggal_diupdate := now
    status := "aktif" }

/-- Response of POST /api/produk. -/
structure CreateResult where
  status : Nat
  success : Bool
  message : String
  errors : List String
  data : Option Produk
  store : List Produk
  ops : List StoreOp
deriving DecidableEq, Repr

/-- POST /api/produk (server.js 568-637): validate, check `kode_produk`
uniqueness, then insert the normalised document. -/
def postProduk (s : List Produk) (d : ProdukPayload) (newId : String) (now : Int) :
    CreateResult :=
  let errors := validateProduk d
  if !errors.isEmpty then
    ⟨400, false, "Data produk tidak valid", errors, none, s, []⟩
  else
    match s.find? (fun p => p.kode_produk == jsTrim (d.kode_produk.getD "")) with
    | some _ =>
      ⟨409, false, "Kode produk sudah digunakan. Gunakan kode yang berbeda.", [],
        none, s, [.findOne "produk"]⟩
    | none =>
      let p := produkBaru d newId now
      ⟨201, true, "Produk berhasil ditambahkan", [], some p, s ++ [p],
        [.findOne "produk", .insertOne "produk"]⟩

/-- The `$set` document of PUT /api/produk/:id applied to the matched
document (server.js 686-702): every payload field re-written,
`tanggal_diupdate` re-stamped, while `_id`, `tanggal_dibuat` and `status`
are not named and hence preserved. -/
def applyProdukSet (p : Produk) (d : ProdukPayload) (now : Int) : Produk :=
  { p with
    kode_produk := jsTrim (d.kode_produk.getD "")
    nama_produk := jsTrim (d.nama_produk.getD "")
    kategori := jsTrim (d.kategori.getD "")
    harga := d.harga.getD 0
    stok := truncRat (d.stok.getD 0)
    deskripsi := jsTrim (d.deskripsi.getD "")
    supplier := jsTrim (d.supplier.getD "")
    tanggal_diupdate := now }

/-- PUT /api/produk/:id (server.js 640-728): id check, full re-validation,
existence check, duplicate `kode_produk` check against other documents,
`$set`, and a "no change" rejection when the store reports zero modified
fields. -/
def putProduk (s : List Produk) (id : String) (d : ProdukPayload) (now : Int) :
    UpdateResult Produk :=
  if !objectIdIsValid id then ⟨400, false, "ID produk tidak valid", [], none, s, []⟩
  else
    let errors := validateProduk d
    if !errors.isEmpty then
      ⟨400, false, "Data produk tidak valid", errors, none, s, []⟩
    else
      match s.find? (fun p => p._id == id) with
      | none => ⟨404, false, "Produk tidak ditemukan", [], none, s, [.findOne "produk"]⟩
      | some target =>
        match s.find? (fun p =>
            p.kode_produk == jsTrim (d.kode_produk.getD "") && !(p._id == id)) with
        | some _ =>
          ⟨409, false, "Kode produk sudah digunakan oleh produk lain", [], none, s,
            [.findOne "produk", .findOne "produk"]⟩
        | none =>
          let s' := updateFirst (fun p => p._id == id) (fun p => applyProdukSet p d now) s
          if applyProdukSet target d now == target then
            ⟨400, false, "Tidak ada perubahan data atau data sama dengan sebelumnya", [],
              none, s', [.findOne "produk", .findOne "produk", .updateOne "produk"]⟩
          else
            ⟨200, true, "Produk berhasil diupdate", [],
              s'.find? (fun p => p._id == id), s',
              [.findOne "produk", .findOne "produk", .updateOne "produk", .findOne "produk"]⟩

/-- Query parameters of GET /posts/search/advanced, as raw strings. -/
structure PostAdvParams where
  title : Option String
  author : Option String
  content : Option String
  date_from : Option String
  date_to : Option String
deriving DecidableEq, Repr

/-- The filter object GET /posts/search/advanced builds. A date bound is
`some (parse result)` when the corresponding parameter is truthy; an inner
`none` is an `Invalid Date` bound from an unparseable string. -/
structure PostAdvFilter where
  title : Option String
  author : Option String
  content : Option String
  created_from : Option (Option Int)
  created_to : Option (Option Int)
deriving DecidableEq, Repr

/-- Filter construction of GET /posts/search/advanced (server.js 229-248):
`new Date(str)` is the environment's date parser, passed in as `parseDate`
(`none` = `Invalid Date`). No branch inspects the parse result. -/
def buildPostAdvFilter (parseDate : String → Option Int) (P : PostAdvParams) :
    PostAdvFilter :=
  { title := if strTruthy P.title then some (P.title.getD "") else none
    author := if strTruthy P.author then some (P.author.getD "") else none
    content := if strTruthy P.content then some (P.content.getD "") else none
    created_from :=
      if strTruthy P.date_from then some (parseDate (P.date_from.getD "")) else none
    created_to :=
      if strTruthy P.date_to then some (parseDate (P.date_to.getD "")) else none }

/-- The timestamp the driver sends for a date bound: a valid date is its
millisecond value; an `Invalid Date` (NaN milliseconds) is BSON-serialised
as the 64-bit integer 0, i.e. the epoch. -/
def dateBoundVal : Option Int → Int
  | some t => t
  | none => 0

/-- Evaluation of the advanced post filter against one document. A date
bound only matches a date-valued `created_at` field. -/
def matchesPostAdvFilter (f : PostAdvFilter) (p : Post) : Bool :=
  (match f.title with | none => true | some pat => ciFieldMatch p.fields "title" pat) &&
  (match f.author with | none => true | some pat => ciFieldMatch p.fields "author" pat) &&
  (match f.content with | none => true | some pat => ciFieldMatch p.fields "content" pat) &&
  (if f.created_from.isSome || f.created_to.isSome then
    match lookupField p.fields "created_at" with
    | some (.date t) =>
      (match f.created_from with | none => true | some b => decide (dateBoundVal b ≤ t)) &&
      (match f.created_to with | none => true | some b => decide (t ≤ dateBoundVal b))
    | _ => false
  else true)

/-- Response of GET /posts/search/advanced. -/
structure PostAdvResult where
  status : Nat
  success : Bool
  message : String
  data : List Post
  filter_used : Option PostAdvFilter
  ops : List StoreOp
deriving DecidableEq, Repr

/-- GET /posts/search/advanced (server.js 217-270): reject when no parameter
is truthy, otherwise find with the built filter, newest first, capped at 50. -/
def postsAdvSearch (parseDate : String → Option Int) (s : List Post) (P : PostAdvParams) :
    PostAdvResult :=
  if !strTruthy P.title && !strTruthy P.author && !strTruthy P.content &&
      !strTruthy P.date_from && !strTruthy P.date_to then
    ⟨400, false, "Minimal satu parameter pencarian harus diisi", [], none, []⟩
  else
    let f := buildPostAdvFilter parseDate P
    let data := (sortPostsDesc (s.filter (matchesPostAdvFilter f))).take 50
    ⟨200, true, "Ditemukan " ++ toString data.length ++ " posts", data, some f,
      [.findMany "posts"]⟩

/-- Query parameters of GET /api/produk/search/advanced; the price bounds are
taken post-`parseFloat` (present = truthy raw string), `stok_kosong` stays a
raw string because the code compares it with the literal `'true'`. -/
structure ProdukAdvParams where
  nama : Option String
  kode : Option String
  kategori : Option String
  min_harga : Option ℚ
  max_harga : Option ℚ
  supplier : Option String
  stok_kosong : Option String
deriving DecidableEq, Repr

/-- Truthiness of a numeric parameter modelled post-parse. -/
def numTruthy : Option ℚ → Bool
  | none => false
  | some _ => true

/-- The GET /api/produk/search/advanced filter (server.js 784-816). -/
def matchesProdukAdv (P : ProdukAdvParams) (p : Produk) : Bool :=
  (if strTruthy P.nama then ciSub p.nama_produk (P.nama.getD "") else true) &&
  (if strTruthy P.kode then ciSub p.kode_produk (P.kode.getD "") else true) &&
  (if strTruthy P.kategori then ciSub p.kategori (P.kategori.getD "") else true) &&
  (if strTruthy P.supplier then ciSub p.supplier (P.supplier.getD "") else true) &&
  (match P.min_harga with | none => true | some m => decide (m ≤ p.harga)) &&
  (match P.max_harga with | none => true | some m => decide (p.harga ≤ m)) &&
  (if P.stok_kosong == some "true" then decide (p.stok ≤ 0) else true)

/-- Response of GET /api/produk/search/advanced. -/
structure ProdukAdvResult where
  status : Nat
  success : Bool
  message : String
  data : List Produk
  ops : List StoreOp
deriving DecidableEq, Repr

/-- GET /api/produk/search/advanced (server.js 771-839): reject when no
parameter is truthy, otherwise find, newest first, capped at 100. -/
def produkAdvSearch (s : List Produk) (P : ProdukAdvParams) : ProdukAdvResult :=
  if !strTruthy P.nama && !strTruthy P.kode && !strTruthy P.kategori &&
      !numTruthy P.min_harga && !numTruthy P.max_harga &&
      !strTruthy P.supplier && !strTruthy P.stok_kosong then
    ⟨400, false, "Minimal satu parameter pencarian harus diisi", [], []⟩
  else
    let data := (sortProdukDesc (s.filter (matchesProdukAdv P))).take 100
    ⟨200, true, "Ditemukan " ++ toString data.length ++ " produk", data,
      [.findMany "produk"]⟩

/-! ### Helper lemmas -/

/-- Truncation of an integer-valued rational is that integer. -/
theorem truncRat_intCast (n : ℤ) : truncRat (n : ℚ) = n := by
  simp only [truncRat, Rat.num_intCast, Rat.den_intCast, Nat.cast_one]
  exact Int.tdiv_one n

/-- The executable `Math.ceil` model agrees with the mathematical ceiling of
the rational quotient whenever the page size is positive. -/
theorem jsCeilDiv_eq (total : Nat) (limitN : Int) (hL : 0 < limitN) :
    jsCeilDiv total limitN = ⌈(total : ℚ) / (limitN : ℚ)⌉ := by
  obtain ⟨L, rfl⟩ : ∃ L : ℕ, limitN = (L : ℤ) :=
    ⟨limitN.toNat, (Int.toNat_of_nonneg hL.le).symm⟩
  rw [jsCeilDiv, Int.fdiv_eq_ediv _ hL.le]
  have hfloor : ⌊((-(total : Int) : ℤ) : ℚ) / ((L : ℕ) : ℚ)⌋ =
      (-(total : Int)) / (L : ℤ) := Rat.floor_intCast_div_natCast _ _
  have hneg : ((-(total : Int) : ℤ) : ℚ) / ((L : ℕ) : ℚ) =
      -((total : ℚ) / (((L : ℤ)) : ℚ)) := by
    push_cast; ring
  rw [← hfloor, hneg, Int.floor_neg, neg_neg]

/-- Membership in a one-element conditional list. -/
theorem mem_ite_cons {c : Prop} [Decidable c] (a b : String) :
    (a ∈ if c then [b] else []) ↔ c ∧ a = b := by
  split <;> simp_all

/-- A conditional one-element list is empty iff the condition fails. -/
theorem ite_cons_eq_nil {c : Prop} [Decidable c] (b : String) :
    ((if c then [b] else []) = []) ↔ ¬c := by
  split <;> simp_all

/-- The five validator messages are pairwise distinct, so membership of the
`nama_produk` message characterises exactly the `nama_produk` rule. -/
theorem msgNama_mem (d : ProdukPayload) :
    msgNama ∈ validateProduk d ↔ namaBad d.nama_produk = true := by
  simp only [validateProduk, List.mem_append, mem_ite_cons]
  simp [msgKode, msgNama, msgKategori, msgHarga, msgStok]

/-- Membership of the `stok` message characterises exactly the `stok` rule. -/
theorem msgStok_mem (d : ProdukPayload) :
    msgStok ∈ validateProduk d ↔ stokBad d.stok = true := by
  simp only [validateProduk, List.mem_append, mem_ite_cons]
  simp [msgKode, msgNama, msgKategori, msgHarga, msgStok]

/-- The validator returns the empty list iff all five rules pass. -/
theorem validateProduk_eq_nil (d : ProdukPayload) :
    validateProduk d = [] ↔
      kodeBad d.kode_produk = false ∧ namaBad d.nama_produk = false ∧
      kategoriBad d.kategori = false ∧ hargaBad d.harga = false ∧
      stokBad d.stok = false := by
  simp only [validateProduk, List.append_eq_nil, ite_cons_eq_nil]
  simp only [Bool.not_eq_true, and_assoc]

/-- The product payload validity predicate exactly as the spec words the five
rules (4.2), including the spec's stricter "`stok` an integer ≥ 0". -/
def specValidProduk (d : ProdukPayload) : Prop :=
  (∃ s, d.kode_produk = some s ∧ jsTrim s ≠ "") ∧
  (∃ s, d.nama_produk = some s ∧ 3 ≤ (jsTrim s).length) ∧
  (∃ s, d.kategori = some s ∧ jsTrim s ≠ "") ∧
  (∃ q, d.harga = some q ∧ 0 < q) ∧
  (∃ n : ℤ, d.stok = some (n : ℚ) ∧ 0 ≤ n)

/-! ### Concrete fixtures -/

/-- A fully valid sample payload (the spec's 8.7 scenario). -/
def payloadValid : ProdukPayload :=
  ⟨some "P1", some "Pen", some "Office", some 5, some 10, none, none⟩

/-- A payload whose `nama_produk` trims to fewer than 3 characters. -/
def payloadShortNama : ProdukPayload :=
  ⟨some "P1", some "Pe", some "Office", some 5, some 10, none, none⟩

/-- The rational 5/2, built from the raw constructor so that it evaluates
under kernel reduction. -/
def ratFiveHalves : ℚ := ⟨5, 2, by decide, by decide⟩

/-- A payload whose `stok` is the non-integer 2.5. -/
def payloadFracStok : ProdukPayload :=
  ⟨some "P1", some "Pen", some "Office", some 5, some ratFiveHalves, none, none⟩

/-! ### Claims -/

/-- C1: the product payload validator is a pure function of the payload
returning the ordered error list. Every payload whose `nama_produk` is
missing or trims to fewer than 3 characters gets the `nama_produk` message
in the returned list, and every payload satisfying the spec's five rules
(`specValidProduk`) gets the empty list. -/
theorem validateProduk_nama_and_valid (d : ProdukPayload) :
    ((d.nama_produk = none ∨ ∃ s, d.nama_produk = some s ∧ (jsTrim s).length < 3) →
      msgNama ∈ validateProduk d) ∧
    (specValidProduk d → validateProduk d = []) := by
  constructor
  · intro h
    refine (msgNama_mem d).mpr ?_
    rcases h with h | ⟨s, hs, hlen⟩
    · rw [h]; decide
    · rw [hs]; simp only [namaBad, Option.getD_some, decide_eq_true_eq]; exact hlen
  · rintro ⟨⟨k, hk, hk'⟩, ⟨n, hn, hn'⟩, ⟨c, hc, hc'⟩, ⟨q, hq, hq'⟩, ⟨z, hz, hz'⟩⟩
    refine (validateProduk_eq_nil d).mpr ⟨?_, ?_, ?_, ?_, ?_⟩
    · rw [hk]; simp [kodeBad]; exact hk'
    · rw [hn]; simp [namaBad]; omega
    · rw [hc]; simp [kategoriBad]; exact hc'
    · rw [hq]; simp [hargaBad]; linarith
    · rw [hz]; simp [stokBad, truncRat_intCast]; omega

/-- Closed witness for C1 at concrete payloads. -/
theorem validateProduk_nama_and_valid_witness :
    msgNama ∈ validateProduk payloadShortNama ∧ validateProduk payloadValid = [] :=
  ⟨(validateProduk_nama_and_valid payloadShortNama).1
      (Or.inr ⟨"Pe", rfl, by decide⟩),
    (validateProduk_nama_and_valid payloadValid).2
      ⟨⟨"P1", rfl, by decide⟩, ⟨"Pen", rfl, by decide⟩, ⟨"Office", rfl, by decide⟩,
        ⟨5, rfl, by norm_num⟩, ⟨10, by decide, by decide⟩⟩⟩

/-- C6 counterexample: the payload whose `stok` is the non-integer 2.5 (a
rational with denominator 2, so not an integer) passes every validator rule
and yields the empty error list, contradicting "absent, non-integer, or
negative `stok` never yields an empty error list". -/
theorem stok_rule_counterexample :
    payloadFracStok.stok = some ratFiveHalves ∧ ratFiveHalves.den ≠ 1 ∧
      validateProduk payloadFracStok = [] :=
  ⟨rfl, by decide, by decide⟩

/-- C6 amended: the validator reports the `stok` error exactly when `stok`
is absent or its `parseInt` truncation is negative; a present numeric
`stok` whose truncation is ≥ 0 passes, even when it is not an integer (and
even when it is a negative fraction above -1). -/
theorem stok_rule_amended (d : ProdukPayload) :
    msgStok ∈ validateProduk d ↔
      (d.stok = none ∨ ∃ q, d.stok = some q ∧ truncRat q < 0) := by
  rw [msgStok_mem]
  cases hz : d.stok with
  | none => simp [stokBad]
  | some q => simp [stokBad]

/-- A valid 24-hex-character ObjectId string. -/
def idA : String := "aaaaaaaaaaaaaaaaaaaaaaaa"

/-- A second, distinct valid ObjectId string. -/
def idB : String := "bbbbbbbbbbbbbbbbbbbbbbbb"

/-- A sample stored product, as created from `payloadValid` at time 0. -/
def prodSample : Produk := produkBaru payloadValid idA 0

/-- C4: a get-by-id, update, or delete request on either collection whose
identifier fails the driver's ObjectId validity check is answered 400 and
issues no operation against the store. -/
theorem invalid_id_never_reaches_store (id : String) (h : objectIdIsValid id = false)
    (sp : List Post) (sq : List Produk) (body : List (String × JsVal))
    (d : ProdukPayload) (t1 t2 : Int) :
    ((postGetById sp id).status = 400 ∧ (postGetById sp id).ops = []) ∧
    ((produkGetById sq id).status = 400 ∧ (produkGetById sq id).ops = []) ∧
    ((postPut sp id body t1).status = 400 ∧ (postPut sp id body t1).ops = []) ∧
    ((putProduk sq id d t2).status = 400 ∧ (putProduk sq id d t2).ops = []) ∧
    ((postDelete sp id).status = 400 ∧ (postDelete sp id).ops = []) ∧
    ((produkDelete sq id).status = 400 ∧ (produkDelete sq id).ops = []) := by
  simp [postGetById, produkGetById, postPut, putProduk, postDelete, produkDelete, h]

/-- Closed witness for C4 at the malformed identifier `"xyz"`. -/
theorem invalid_id_never_reaches_store_witness :
    objectIdIsValid "xyz" = false ∧
      (postDelete ([] : List Post) "xyz").status = 400 ∧
      (postDelete ([] : List Post) "xyz").ops = [] :=
  ⟨by decide,
    (invalid_id_never_reaches_store "xyz" (by decide) [] [] [] payloadValid 0 0).2.2.2.2.1.1,
    (invalid_id_never_reaches_store "xyz" (by decide) [] [] [] payloadValid 0 0).2.2.2.2.1.2⟩

/-- C8: a delete with a well-formed identifier answers 404 with
`success: false` and an unchanged store when no document matches, and
otherwise removes the (first) matching document and returns it as
`deleted_data` confirmation, for both collections. -/
theorem delete_behaviour (id : String) (h : objectIdIsValid id = true)
    (sp : List Post) (sq : List Produk) :
    ((sp.find? (fun p => p._id == id) = none →
        (postDelete sp id).status = 404 ∧ (postDelete sp id).success = false ∧
        (postDelete sp id).store = sp) ∧
      (∀ p, sp.find? (fun e => e._id == id) = some p →
        (postDelete sp id).status = 200 ∧ (postDelete sp id).deleted_data = some p ∧
        (postDelete sp id).store = sp.eraseP (fun e => e._id == id))) ∧
    ((sq.find? (fun p => p._id == id) = none →
        (produkDelete sq id).status = 404 ∧ (produkDelete sq id).success = false ∧
        (produkDelete sq id).store = sq) ∧
      (∀ p, sq.find? (fun e => e._id == id) = some p →
        (produkDelete sq id).status = 200 ∧ (produkDelete sq id).deleted_data = some p ∧
        (produkDelete sq id).store = sq.eraseP (fun e => e._id == id))) := by
  refine ⟨⟨fun hfind => ?_, fun p hfind => ?_⟩, ⟨fun hfind => ?_, fun p hfind => ?_⟩⟩ <;>
    simp [postDelete, produkDelete, h, hfind]

/-- Closed witness for C8: deleting from an empty post store answers 404;
deleting the sample product removes it and returns it. -/
theorem delete_behaviour_witness :
    ((postDelete ([] : List Post) idA).status = 404 ∧
      (postDelete ([] : List Post) idA).success = false) ∧
    ((produkDelete [prodSample] idA).status = 200 ∧
      (produkDelete [prodSample] idA).deleted_data = some prodSample ∧
      (produkDelete [prodSample] idA).store = []) := by
  have h := delete_behaviour idA (by decide) [] [prodSample]
  have h404 := h.1.1 (by decide)
  have h200 := h.2.2 prodSample (by decide)
  exact ⟨⟨h404.1, h404.2.1⟩, ⟨h200.1, h200.2.1, h200.2.2.trans (by decide)⟩⟩

/-- The number of post documents matching a list request's filter (the store's
`countDocuments(filter)`). -/
def postsMatchCount (s : List Post) (P : PostListParams) : Nat :=
  (s.filter (matchesPostList P)).length

/-- The number of product documents matching a list request's filter. -/
def produkMatchCount (s : List Produk) (P : ProdukListParams) : Nat :=
  (s.filter (matchesProdukList P)).length

/-- C3: for a list request over a collection with N matching documents,
requested page p and positive page size L, the issued skip is (p-1)×L, the
metadata reports total_pages = ⌈N/L⌉ and total_data = N, has_next holds iff
p < ⌈N/L⌉, and has_prev holds iff p > 1 — for both list endpoints. -/
theorem pagination_metadata (sp : List Post) (P : PostListParams)
    (sq : List Produk) (Q : ProdukListParams) (hP : 0 < P.limit) (hQ : 0 < Q.limit) :
    ((postsList sp P).query.skip = (P.page - 1) * P.limit ∧
      (postsList sp P).pagination.total_data = postsMatchCount sp P ∧
      (postsList sp P).pagination.total_pages =
        ⌈(postsMatchCount sp P : ℚ) / (P.limit : ℚ)⌉ ∧
      ((postsList sp P).pagination.has_next = true ↔
        P.page < ⌈(postsMatchCount sp P : ℚ) / (P.limit : ℚ)⌉) ∧
      ((postsList sp P).pagination.has_prev = true ↔ 1 < P.page)) ∧
    ((produkList sq Q).query.skip = (Q.page - 1) * Q.limit ∧
      (produkList sq Q).pagination.total_data = produkMatchCount sq Q ∧
      (produkList sq Q).pagination.total_pages =
        ⌈(produkMatchCount sq Q : ℚ) / (Q.limit : ℚ)⌉ ∧
      ((produkList sq Q).pagination.has_next = true ↔
        Q.page < ⌈(produkMatchCount sq Q : ℚ) / (Q.limit : ℚ)⌉) ∧
      ((produkList sq Q).pagination.has_prev = true ↔ 1 < Q.page)) := by
  refine ⟨⟨rfl, rfl, ?_, ?_, ?_⟩, ⟨rfl, rfl, ?_, ?_, ?_⟩⟩
  · exact jsCeilDiv_eq _ _ hP
  · rw [show (postsList sp P).pagination.has_next =
        decide (P.page < jsCeilDiv (postsMatchCount sp P) P.limit) from rfl,
      decide_eq_true_iff, jsCeilDiv_eq _ _ hP]
  · rw [show (postsList sp P).pagination.has_prev = decide (1 < P.page) from rfl,
      decide_eq_true_iff]
  · exact jsCeilDiv_eq _ _ hQ
  · rw [show (produkList sq Q).pagination.has_next =
        decide (Q.page < jsCeilDiv (produkMatchCount sq Q) Q.limit) from rfl,
      decide_eq_true_iff, jsCeilDiv_eq _ _ hQ]
  · rw [show (produkList sq Q).pagination.has_prev = decide (1 < Q.page) from rfl,
      decide_eq_true_iff]

/-- Closed witness for C3 at page 2, size 10, over concrete stores. -/
theorem pagination_metadata_witness :
    (0 : Int) < 10 ∧
      (postsList ([] : List Post) ⟨none, 2, 10⟩).query.skip = (2 - 1) * 10 ∧
      ((postsList ([] : List Post) ⟨none, 2, 10⟩).pagination.has_prev = true ↔
        (1 : Int) < 2) := by
  have h := pagination_metadata [] ⟨none, 2, 10⟩ []
    ⟨none, none, none, none, 2, 10⟩ (by decide) (by decide)
  exact ⟨by decide, h.1.1, h.1.2.2.2.2⟩

/-- C10: the advanced searches cap their result lists (50 posts, 100
products) taken from the sorted matches, while the plain list endpoints
pass the requested page size through to the store unclamped — a list
request sized to the whole collection returns every document. -/
theorem search_caps_and_list_unbounded :
    (∀ (parseDate : String → Option Int) (s : List Post) (P : PostAdvParams),
      (postsAdvSearch parseDate s P).data.length ≤ 50) ∧
    (∀ (s : List Produk) (P : ProdukAdvParams),
      (produkAdvSearch s P).data.length ≤ 100) ∧
    (∀ (s : List Post) (P : PostListParams), (postsList s P).query.limit = P.limit) ∧
    (∀ (s : List Produk) (P : ProdukListParams), (produkList s P).query.limit = P.limit) ∧
    (∀ (s : List Produk),
      (produkList s ⟨none, none, none, none, 1, (s.length : Int)⟩).data.length
        = s.length) := by
  refine ⟨?_, ?_, fun s P => rfl, fun s P => rfl, ?_⟩
  · intro parseDate s P
    unfold postsAdvSearch
    split
    · simp
    · simp [List.length_take]
  · intro s P
    unfold produkAdvSearch
    split
    · simp
    · simp [List.length_take]
  · intro s
    show (runFind (sortProdukDesc (s.filter
        (matchesProdukList ⟨none, none, none, none, 1, (s.length : Int)⟩)))
      ⟨(1 - 1) * (s.length : Int), (s.length : Int)⟩).length = s.length
    have hfilter : s.filter
        (matchesProdukList ⟨none, none, none, none, 1, (s.length : Int)⟩) = s := by
      simp [matchesProdukList, strTruthy]
    rw [hfilter]
    simp [runFind, List.length_take, sortProdukDesc, List.length_mergeSort]

/-- `find?` after `updateFirst` with the same predicate returns the rewritten
first match, provided the rewrite preserves the predicate. -/
theorem find?_updateFirst {α : Type} (p : α → Bool) (f : α → α) (l : List α) (x : α)
    (hx : l.find? p = some x) (hf : p (f x) = true) :
    (updateFirst p f l).find? p = some (f x) := by
  induction l with
  | nil => simp at hx
  | cons a t ih =>
    by_cases hpa : p a = true
    · rw [List.find?_cons_of_pos _ hpa] at hx
      obtain rfl : a = x := by injection hx
      simp only [updateFirst, if_pos hpa]
      rw [List.find?_cons_of_pos _ hf]
    · have hpa' : p a = false := by simpa using hpa
      rw [List.find?_cons_of_neg _ (by simp [hpa'])] at hx
      simp only [updateFirst, hpa', Bool.false_eq_true, if_false]
      rw [List.find?_cons_of_neg _ (by simp [hpa'])]
      exact ih hx

/-- A second valid payload with the same `kode_produk` as `payloadValid` but
different name, price and stock. -/
def payloadValid2 : ProdukPayload :=
  ⟨some "P1", some "Pencil", some "Office", some 7, some 4, none, none⟩

/-- C7: a successful (200) product update leaves `_id`, `tanggal_dibuat` and
`status` of the stored document unchanged, re-stamps `tanggal_diupdate` to
the request time, rewrites exactly the payload fields (via
`applyProdukSet`), stores the result in place of the first matching
document, and returns it as the response data. -/
theorem produk_update_frame (s : List Produk) (id : String) (d : ProdukPayload)
    (now : Int) (h : (putProduk s id d now).status = 200) :
    ∃ target, s.find? (fun p => p._id == id) = some target ∧
      (putProduk s id d now).store =
        updateFirst (fun p => p._id == id) (fun p => applyProdukSet p d now) s ∧
      (putProduk s id d now).data = some (applyProdukSet target d now) ∧
      (applyProdukSet target d now)._id = target._id ∧
      (applyProdukSet target d now).tanggal_dibuat = target.tanggal_dibuat ∧
      (applyProdukSet target d now).status = target.status ∧
      (applyProdukSet target d now).tanggal_diupdate = now := by
  by_cases hid : objectIdIsValid id = true
  · by_cases hval : (validateProduk d).isEmpty = true
    · rcases hfind : s.find? (fun p => p._id == id) with _ | target
      · simp [putProduk, hid, hval, hfind] at h
      · rcases hdup : s.find? (fun p =>
            p.kode_produk == jsTrim (d.kode_produk.getD "") && !(p._id == id)) with _ | othr
        · by_cases hch : (applyProdukSet target d now == target) = true
          · simp [putProduk, hid, hval, hfind, hdup, hch] at h
          · have hch' : (applyProdukSet target d now == target) = false := by
              simpa using hch
            refine ⟨target, hfind, ?_, ?_, rfl, rfl, rfl, rfl⟩
            · simp [putProduk, hid, hval, hfind, hdup, hch']
            · have hpres : ((applyProdukSet target d now)._id == id) = true := by
                have := List.find?_some hfind
                simpa [applyProdukSet] using this
              have hdata := find?_updateFirst (fun p => p._id == id)
                (fun p => applyProdukSet p d now) s target hfind hpres
              simp [putProduk, hid, hval, hfind, hdup, hch', hdata]
        · simp [putProduk, hid, hval, hfind, hdup] at h
    · simp [putProduk, hid, hval] at h
  · simp [putProduk, hid] at h

/-- Closed witness for C7: updating the sample product with new name, price
and stock at time 5 succeeds, preserving identifier, creation timestamp and
status. -/
theorem produk_update_frame_witness :
    (putProduk [prodSample] idA payloadValid2 5).status = 200 ∧
    ∃ target, [prodSample].find? (fun p => p._id == idA) = some target ∧
      (putProduk [prodSample] idA payloadValid2 5).store =
        updateFirst (fun p => p._id == idA) (fun p => applyProdukSet p payloadValid2 5)
          [prodSample] ∧
      (putProduk [prodSample] idA payloadValid2 5).data =
        some (applyProdukSet target payloadValid2 5) ∧
      (applyProdukSet target payloadValid2 5)._id = target._id ∧
      (applyProdukSet target payloadValid2 5).tanggal_dibuat = target.tanggal_dibuat ∧
      (applyProdukSet target payloadValid2 5).status = target.status ∧
      (applyProdukSet target payloadValid2 5).tanggal_diupdate = 5 :=
  ⟨by decide, produk_update_frame [prodSample] idA payloadValid2 5 (by decide)⟩

/-- The payload's coerced field values coincide with those stored in `p`:
the "update with unchanged field values" situation of the spec's scenario. -/
def payloadMatchesProduk (d : ProdukPayload) (p : Produk) : Prop :=
  jsTrim (d.kode_produk.getD "") = p.kode_produk ∧
  jsTrim (d.nama_produk.getD "") = p.nama_produk ∧
  jsTrim (d.kategori.getD "") = p.kategori ∧
  d.harga.getD 0 = p.harga ∧
  truncRat (d.stok.getD 0) = p.stok ∧
  jsTrim (d.deskripsi.getD "") = p.deskripsi ∧
  jsTrim (d.supplier.getD "") = p.supplier

instance (d : ProdukPayload) (p : Produk) : Decidable (payloadMatchesProduk d p) := by
  unfold payloadMatchesProduk
  infer_instance

/-- On a matching payload, the `$set` only moves the update timestamp. -/
theorem applyProdukSet_of_matches {d : ProdukPayload} {p : Produk} {now : Int}
    (h : payloadMatchesProduk d p) :
    applyProdukSet p d now = { p with tanggal_diupdate := now } := by
  obtain ⟨h1, h2, h3, h4, h5, h6, h7⟩ := h
  simp [applyProdukSet, h1, h2, h3, h4, h5, h6, h7]

/-- C5 counterexample: a product update whose payload field values all equal
the stored ones, issued at a time (5) different from the stored update
timestamp (0), modifies `tanggal_diupdate`, so the store reports one
modified document and the handler answers 200 — not the claimed 400. -/
theorem no_change_update_counterexample :
    payloadMatchesProduk payloadValid prodSample ∧
      prodSample.tanggal_diupdate = 0 ∧
      (putProduk [prodSample] idA payloadValid 5).status = 200 :=
  ⟨by decide, rfl, by decide⟩

/-- A sample stored post whose `updated_at` was stamped 5. -/
def postSample : Post := ⟨idA, [("title", JsVal.str "A"), ("updated_at", JsVal.date 5)]⟩

/-- A post update body re-writing `title` with its stored value. -/
def postBodySame : List (String × JsVal) := [("title", JsVal.str "A")]

/-- C5 amended: whenever the store reports zero modified fields (the applied
`$set` leaves the matched document unchanged) the handler answers 400 "no
change", for posts and products alike; but a product update with unchanged
payload fields also re-stamps `tanggal_diupdate`, so it reaches that branch
only when the fresh timestamp equals the stored one, and answers 200
otherwise. -/
theorem no_change_update_amended :
    (∀ (s : List Post) (id : String) (body : List (String × JsVal)) (now : Int)
        (target : Post),
      objectIdIsValid id = true → body ≠ [] →
      s.find? (fun p => p._id == id) = some target →
      applyPostSet target body now = target →
      (postPut s id body now).status = 400 ∧
        (postPut s id body now).message = "Tidak ada perubahan data") ∧
    (∀ (s : List Produk) (id : String) (d : ProdukPayload) (now : Int) (target : Produk),
      objectIdIsValid id = true → validateProduk d = [] →
      s.find? (fun p => p._id == id) = some target →
      s.find? (fun p => p.kode_produk == jsTrim (d.kode_produk.getD "") &&
        !(p._id == id)) = none →
      applyProdukSet target d now = target →
      (putProduk s id d now).status = 400 ∧
        (putProduk s id d now).message =
          "Tidak ada perubahan data atau data sama dengan sebelumnya") ∧
    (∀ (s : List Produk) (id : String) (d : ProdukPayload) (now : Int) (target : Produk),
      objectIdIsValid id = true → validateProduk d = [] →
      s.find? (fun p => p._id == id) = some target →
      s.find? (fun p => p.kode_produk == jsTrim (d.kode_produk.getD "") &&
        !(p._id == id)) = none →
      payloadMatchesProduk d target → now ≠ target.tanggal_diupdate →
      (putProduk s id d now).status = 200) := by
  refine ⟨?_, ?_, ?_⟩
  · intro s id body now target hid hbody hfind hsame
    have hne : body.isEmpty = false := by
      cases body with
      | nil => exact absurd rfl hbody
      | cons a t => rfl
    constructor <;> simp [postPut, hid, hne, hfind, hsame]
  · intro s id d now target hid hval hfind hdup hsame
    constructor <;> simp [putProduk, hid, hval, hfind, hdup, hsame]
  · intro s id d now target hid hval hfind hdup hmatch hne
    have happ : applyProdukSet target d now = { target with tanggal_diupdate := now } :=
      applyProdukSet_of_matches hmatch
    have hch : (applyProdukSet target d now == target) = false := by
      rw [happ]
      simp only [beq_eq_false_iff_ne, ne_eq]
      intro heq
      exact hne (congrArg Produk.tanggal_diupdate heq)
    simp [putProduk, hid, hval, hfind, hdup, hch]

/-- Closed witness for C5's amended statement: a post update re-writing the
stored values at the stored timestamp answers 400; the matching product
update answers 400 exactly when issued at the stored timestamp (0) and 200
at any other time (5). -/
theorem no_change_update_witness :
    (postPut [postSample] idA postBodySame 5).status = 400 ∧
    (putProduk [prodSample] idA payloadValid 0).status = 400 ∧
    (putProduk [prodSample] idA payloadValid 5).status = 200 :=
  ⟨(no_change_update_amended.1 [postSample] idA postBodySame 5 postSample
      (by decide) (by decide) (by decide) (by decide)).1,
    (no_change_update_amended.2.1 [prodSample] idA payloadValid 0 prodSample
      (by decide) (by decide) (by decide) (by decide) (by decide)).1,
    no_change_update_amended.2.2 [prodSample] idA payloadValid 5 prodSample
      (by decide) (by decide) (by decide) (by decide) (by decide) (by decide)⟩

/-- A valid payload with a different `kode_produk`. -/
def payloadValidB : ProdukPayload :=
  ⟨some "P2", some "Pen2", some "Office", some 5, some 10, none, none⟩

/-- A second stored product with `kode_produk` "P2" and identifier `idB`. -/
def prodB : Produk := produkBaru payloadValidB idB 0

/-- C2: a successful product create makes any later valid create with the
same trimmed `kode_produk` fail 409, and a valid product update whose new
`kode_produk` equals that of an existing document with a different
identifier fails 409. -/
theorem kode_produk_conflict :
    (∀ (s : List Produk) (d1 d2 : ProdukPayload) (id1 id2 : String) (t1 t2 : Int),
      (postProduk s d1 id1 t1).status = 201 →
      validateProduk d2 = [] →
      jsTrim (d2.kode_produk.getD "") = jsTrim (d1.kode_produk.getD "") →
      (postProduk (postProduk s d1 id1 t1).store d2 id2 t2).status = 409) ∧
    (∀ (s : List Produk) (id : String) (d : ProdukPayload) (now : Int) (othr : Produk),
      objectIdIsValid id = true →
      validateProduk d = [] →
      (∃ t, s.find? (fun p => p._id == id) = some t) →
      othr ∈ s → othr.kode_produk = jsTrim (d.kode_produk.getD "") → othr._id ≠ id →
      (putProduk s id d now).status = 409) := by
  constructor
  · intro s d1 d2 id1 id2 t1 t2 h1 hval2 hkode
    by_cases hv1 : (validateProduk d1).isEmpty = true
    · rcases hfind1 : s.find? (fun p => p.kode_produk == jsTrim (d1.kode_produk.getD ""))
        with _ | w
      · have hstore : (postProduk s d1 id1 t1).store = s ++ [produkBaru d1 id1 t1] := by
          simp [postProduk, hv1, hfind1]
        rw [hstore]
        have hexists : ∃ x ∈ s ++ [produkBaru d1 id1 t1],
            (x.kode_produk == jsTrim (d2.kode_produk.getD "")) = true := by
          refine ⟨produkBaru d1 id1 t1, by simp, ?_⟩
          simp [produkBaru, hkode]
        have hsome := List.find?_isSome.mpr hexists
        rcases hfind2 : (s ++ [produkBaru d1 id1 t1]).find?
            (fun p => p.kode_produk == jsTrim (d2.kode_produk.getD "")) with _ | w2
        · rw [hfind2] at hsome; simp at hsome
        · simp [postProduk, hval2, hfind2]
      · simp [postProduk, hv1, hfind1] at h1
    · simp [postProduk, hv1] at h1
  · intro s id d now othr hid hval hfindEx hmem hkode hne
    obtain ⟨t, hfind⟩ := hfindEx
    have hexists : ∃ x ∈ s,
        (x.kode_produk == jsTrim (d.kode_produk.getD "") && !(x._id == id)) = true := by
      refine ⟨othr, hmem, ?_⟩
      simp [hkode, hne]
    have hsome := List.find?_isSome.mpr hexists
    rcases hdup : s.find? (fun p =>
        p.kode_produk == jsTrim (d.kode_produk.getD "") && !(p._id == id)) with _ | w
    · rw [hdup] at hsome; simp at hsome
    · simp [putProduk, hid, hval, hfind, hdup]

/-- Closed witness for C2: re-creating "P1" after a successful create answers
409, and updating `prodB` to the kode of `prodSample` answers 409. -/
theorem kode_produk_conflict_witness :
    (postProduk (postProduk [] payloadValid idA 0).store payloadValid2 idB 1).status = 409 ∧
    (putProduk [prodSample, prodB] idB payloadValid 5).status = 409 :=
  ⟨kode_produk_conflict.1 [] payloadValid payloadValid2 idA idB 0 1
      (by decide) (by decide) (by decide),
    kode_produk_conflict.2 [prodSample, prodB] idB payloadValid 5 prodSample
      (by decide) (by decide) ⟨prodB, by decide⟩ (by decide) (by decide) (by decide)⟩

/-- C9 counterexample: an advanced post search whose `date_from` is an
unparseable date string is not rejected with a parse error — the handler
answers 200 and issues the find against the store. -/
theorem invalid_date_counterexample :
    (postsAdvSearch (fun _ => none) []
        ⟨none, none, none, some "not a date", none⟩).status = 200 ∧
      (postsAdvSearch (fun _ => none) []
        ⟨none, none, none, some "not a date", none⟩).ops = [StoreOp.findMany "posts"] :=
  ⟨by decide, by decide⟩

/-- C9 amended: an unparseable `date_from` does not fail the request: the
handler still answers 200, still queries the store, and embeds the invalid
parse result (`Invalid Date`, BSON-serialised as epoch 0) as the lower
`created_at` bound of the filter — the parse failure is silently passed
through, neither rejected nor dropped. -/
theorem invalid_date_unguarded (parseDate : String → Option Int) (s : List Post)
    (P : PostAdvParams) (raw : String)
    (hdf : P.date_from = some raw) (hraw : raw ≠ "") (hparse : parseDate raw = none) :
    (postsAdvSearch parseDate s P).status = 200 ∧
    (postsAdvSearch parseDate s P).ops = [StoreOp.findMany "posts"] ∧
    ∃ f, (postsAdvSearch parseDate s P).filter_used = some f ∧
      f.created_from = some none := by
  have htr : strTruthy P.date_from = true := by
    rw [hdf]
    simp [strTruthy, hraw]
  refine ⟨?_, ?_, ?_⟩ <;>
    simp [postsAdvSearch, htr, buildPostAdvFilter, hdf, hparse,
      strTruthy, hraw]

/-- Closed witness for C9's amended statement. -/
theorem invalid_date_unguarded_witness :
    ((⟨none, none, none, some "not a date", none⟩ : PostAdvParams).date_from
        = some "not a date" ∧ "not a date" ≠ "") ∧
    (postsAdvSearch (fun _ => none) []
      ⟨none, none, none, some "not a date", none⟩).status = 200 :=
  ⟨⟨rfl, by decide⟩,
    (invalid_date_unguarded (fun _ => none) []
      ⟨none, none, none, some "not a date", none⟩ "not a date" rfl (by decide) rfl).1⟩

end Mongo45
